import Mathlib

/-!
Verification development for the Two-Wheeler-Event-Detection pipeline.

The definitions below are a shallow embedding of the Python sources:
* `Hardware Source Codes/main2.py` (speed integrator, GPS thread, speed-limit
  thread, ride start),
* `Hardware Source Codes/mpu_utils.py` (raw register decoding, Kalman-filtered
  IMU reads),
* `Hardware Source Codes/speed_limit_utils.py` (speed-limit HTTP fetch),
* `Warning Generation Algorithm/Warning_Generate.py` (harsh-brake detector and
  LSTM bump thresholding).

Floating-point values are modelled as rationals (`ℚ`); wall/monotonic clock
readings are passed in explicitly as arguments; fallible I/O is modelled by
`Option`/an explicit outcome type.  Python module-level globals are gathered
into explicit state structures that each embedded function threads through.

One Python subtlety is embedded with care and called out where it matters:
a Python function body that assigns a name NOT listed in a `global`
declaration creates a function-local binding; the module-level variable of
the same name is left untouched.  `gps_thread` (main2.py line 152) declares
`global latest_gps, gps_last_update_time, latest_speed_source` only, and
`main` (main2.py line 436) declares `global latest_speed_limit,
last_speed_limit_fetch, current_is_active, last_control_poll, shm_writer`
only, so in both functions the assignments to `current_speed_ms` and
`last_speed_calc_ts` (lines 174-175 and 534-535) bind locals.  The embedding
of those code paths therefore returns the module state unchanged together
with the values that ended up in the local frame.
-/

-- Rational arithmetic is kept `@[irreducible]` upstream for performance;
-- concrete evaluations below go through `decide`, which needs these to unfold.
attribute [local semireducible] Rat.ofScientific Rat.add Rat.mul Rat.sub Rat.inv

namespace TwoWheeler

/-! ## Constants (main2.py lines 16-63, Warning_Generate.py lines 36, 202-206) -/

def TARGET_HZ : ℕ := 104

def OPTIMAL_BIAS : ℚ := 0.117588

def DEADBAND_G : ℚ := 0.02

def G_TO_MS2 : ℚ := 9.81

def SPEED_LIMIT_REFRESH_S : ℚ := 50

def FALLBACK_SAMPLES : ℕ := 104

def BATCH_SIZE : ℕ := 104

def HARSH_BRAKE_THRESHOLD : ℚ := -4

def BUMP_CONFIDENCE_THRESHOLD : ℚ := 0.6

/-! ## Speed integrator state (main2.py lines 52-55)

Module-level globals `last_accel_ms2`, `last_speed_calc_ts` (a
`perf_counter` anchor, `None` before the first call) and `current_speed_ms`.
-/

structure SpeedState where
  last_accel_ms2 : ℚ
  last_speed_calc_ts : Option ℚ
  current_speed_ms : ℚ
deriving DecidableEq, Repr

/-- Embedding of `calculate_speed_from_accel` (main2.py lines 70-120).
The argument `now` stands for the `time.perf_counter()` reading taken at
line 84.  Returns the updated module state and the function's return value.
Note that the non-negative clamp (lines 110-114 of the source) is commented
out in the code; only the upper hard cap at `83.3333` m/s (line 117) is
active. -/
def calculate_speed_from_accel (s : SpeedState) (now : ℚ) : SpeedState × ℚ :=
  match s.last_speed_calc_ts with
  | none => ({ s with last_speed_calc_ts := some now }, s.current_speed_ms)
  | some ts =>
    let dt := max 0 (now - ts)
    let accel_g := s.last_accel_ms2 / G_TO_MS2
    let accel_corrected_g := accel_g - OPTIMAL_BIAS
    let accel_corrected_g := if |accel_corrected_g| < DEADBAND_G then 0 else accel_corrected_g
    let accel_corrected_ms2 := accel_corrected_g * G_TO_MS2
    let v := s.current_speed_ms + accel_corrected_ms2 * dt
    let v := if v > 83.3333 then 83.3333 else v
    ({ s with last_speed_calc_ts := some now, current_speed_ms := v }, v)

/-- Sequence of consecutive integrator calls.  Each element of `calls` is a
pair `(now, accel)`: the `perf_counter` reading of that call and the value
the MPU thread (main2.py lines 122-144) has stored into `last_accel_ms2`
before the call. -/
def runSpeedCalls (s : SpeedState) (calls : List (ℚ × ℚ)) : SpeedState :=
  calls.foldl
    (fun st p => (calculate_speed_from_accel { st with last_accel_ms2 := p.2 } p.1).1) s

/-! ## GPS thread shared state (main2.py lines 38, 44, 57)

Module-level globals touched by `gps_thread`: `latest_gps` (a triple whose
components start out as `None`), `gps_last_update_time` (wall clock) and
`latest_speed_source`, plus the speed-integrator state above. -/

structure GpsShared where
  speed : SpeedState
  latest_gps : Option ℚ × Option ℚ × Option ℚ
  gps_last_update_time : ℚ
  latest_speed_source : String
deriving DecidableEq, Repr

/-- Embedding of the fallback-averaging blocks of `gps_thread`
(main2.py lines 181-189, 193-201, 211-219, 229-237): call
`calculate_speed_from_accel` `FALLBACK_SAMPLES` (= 104) times, average the
returned samples and convert to km/h.  `times` supplies the `perf_counter`
reading of the i-th call. -/
def fallback_avg (s : SpeedState) (times : ℕ → ℚ) : SpeedState × ℚ :=
  let r := (List.range FALLBACK_SAMPLES).foldl
    (fun acc i =>
      let c := calculate_speed_from_accel acc.1 (times i)
      (c.1, acc.2 ++ [c.2]))
    (s, ([] : List ℚ))
  (r.1, r.2.sum / (r.2.length : ℚ) * 3.6)

/-- Embedding of one iteration of the body of `gps_thread`
(main2.py lines 159-242), given the value returned by
`gps_utils.get_gps_data` (which yields `(None, None, None)` on any parse
failure, serial error or exception - gps_utils.py lines 98, 125, 149, 154).

IMPORTANT Python scoping detail, embedded faithfully: `gps_thread` declares
`global latest_gps, gps_last_update_time, latest_speed_source` (line 152)
but not `current_speed_ms` / `last_speed_calc_ts`, so the two assignments in
the "anchor" branch (lines 174-175) bind names in the thread's local frame
and the module-level integrator state `st.speed` is NOT modified.  The
second component of the result records that local frame
`(current_speed_ms, last_speed_calc_ts)` when the branch runs. -/
def gps_thread_iteration (st : GpsShared)
    (gps_data : Option ℚ × Option ℚ × Option ℚ)
    (now_perf : ℚ) (times : ℕ → ℚ) (now_wall : ℚ) :
    GpsShared × Option (ℚ × ℚ) :=
  if gps_data ≠ (none, none, none) then
    match gps_data with
    | (lat, lon, gps_speed?) =>
      match gps_speed? with
      | some gps_speed =>
        if 0.5 < gps_speed ∧ gps_speed ≤ 300 then
          -- lines 169-175: valid GPS speed; the "anchor" writes hit locals only
          let local_current_speed_ms := max 0 (min 83.3333 (gps_speed / 3.6))
          let local_last_speed_calc_ts := now_perf
          ({ st with latest_gps := (lat, lon, some gps_speed),
                     gps_last_update_time := now_wall,
                     latest_speed_source := "GPS" },
           some (local_current_speed_ms, local_last_speed_calc_ts))
        else if |gps_speed| < 0.5 then
          -- lines 178-190: near-zero GPS speed, fallback averaging
          let f := fallback_avg st.speed times
          ({ st with speed := f.1,
                     latest_gps := (lat, lon, some f.2),
                     gps_last_update_time := now_wall,
                     latest_speed_source := "ACCEL" }, none)
        else
          -- lines 191-202: invalid GPS speed, fallback averaging
          let f := fallback_avg st.speed times
          ({ st with speed := f.1,
                     latest_gps := (lat, lon, some f.2),
                     gps_last_update_time := now_wall,
                     latest_speed_source := "ACCEL" }, none)
      | none =>
        -- speed missing: same fallback branch as invalid speed
        let f := fallback_avg st.speed times
        ({ st with speed := f.1,
                   latest_gps := (lat, lon, some f.2),
                   gps_last_update_time := now_wall,
                   latest_speed_source := "ACCEL" }, none)
  else
    -- lines 209-224: GPS read failed completely; note (None, None, final_speed)
    let f := fallback_avg st.speed times
    ({ st with speed := f.1,
               latest_gps := (none, none, some f.2),
               gps_last_update_time := now_wall,
               latest_speed_source := "ACCEL" }, none)

/-- Embedding of the ride-start integrator reset in `main`
(main2.py lines 532-535).  `main` declares `global latest_speed_limit,
last_speed_limit_fetch, current_is_active, last_control_poll, shm_writer`
(line 436); `current_speed_ms` and `last_speed_calc_ts` are not in that
list, so the assignments `current_speed_ms = 0.0` and
`last_speed_calc_ts = None` bind locals of `main`.  The module-level
integrator state is returned unchanged; the second and third components are
the values held by the newly created locals. -/
def ride_start_reset (s : SpeedState) : SpeedState × ℚ × Option ℚ :=
  (s, 0, none)

/-! ## IMU reads (mpu_utils.py) -/

/-- Embedding of `KalmanFilter1D` state (mpu_utils.py lines 20-45). -/
structure KalmanFilter1D where
  process_variance : ℚ
  measurement_variance : ℚ
  estimate : ℚ
  error_estimate : ℚ
deriving DecidableEq, Repr

/-- Embedding of `KalmanFilter1D.update` (mpu_utils.py lines 34-45). -/
def KalmanFilter1D.update (k : KalmanFilter1D) (measurement : ℚ) :
    ℚ × KalmanFilter1D :=
  let predicted_estimate := k.estimate
  let predicted_error := k.error_estimate + k.process_variance
  let kalman_gain := predicted_error / (predicted_error + k.measurement_variance)
  let e := predicted_estimate + kalman_gain * (measurement - predicted_estimate)
  (e, { k with estimate := e, error_estimate := (1 - kalman_gain) * predicted_error })

/-- Fresh accelerometer-axis filter (mpu_utils.py lines 28-32, 48-52). -/
def accelFilterInit : KalmanFilter1D :=
  { process_variance := 0.00001, measurement_variance := 0.01
    estimate := 0, error_estimate := 1 }

/-- Fresh gyroscope-axis filter (mpu_utils.py lines 28-32, 54-58). -/
def gyroFilterInit : KalmanFilter1D :=
  { process_variance := 0.00001, measurement_variance := 0.005
    estimate := 0, error_estimate := 1 }

/-- The six per-axis Kalman filters of mpu_utils.py lines 48-58. -/
structure MpuFilters where
  ax : KalmanFilter1D
  ay : KalmanFilter1D
  az : KalmanFilter1D
  gx : KalmanFilter1D
  gy : KalmanFilter1D
  gz : KalmanFilter1D
deriving DecidableEq, Repr

/-- Result tuple of `get_mpu_data`: six optional readings, matching the
Python 6-tuple whose entries are floats on success and `None` on failure. -/
abbrev MpuTuple :=
  Option ℚ × Option ℚ × Option ℚ × Option ℚ × Option ℚ × Option ℚ

/-- Embedding of `get_mpu_data` (mpu_utils.py lines 136-178).  `readRes` is
the outcome of the six raw register reads (lines 145-150): `none` models the
device read raising an exception, in which case the `except` handler at
lines 176-178 returns `(None, None, None, None, None, None)` and no filter
is updated (the reads all precede the first filter update). -/
def get_mpu_data (readRes : Option (ℤ × ℤ × ℤ × ℤ × ℤ × ℤ))
    (accel_bias gyro_bias : ℚ × ℚ × ℚ) (fs : MpuFilters) :
    MpuTuple × MpuFilters :=
  match readRes with
  | none => ((none, none, none, none, none, none), fs)
  | some (rax, ray, raz, rgx, rgy, rgz) =>
    let acc_x := (rax : ℚ) / 16384
    let acc_y := (ray : ℚ) / 16384
    let acc_z := (raz : ℚ) / 16384
    let gyro_x := (rgx : ℚ) / 131
    let gyro_y := (rgy : ℚ) / 131
    let gyro_z := (rgz : ℚ) / 131
    let acc_x_calibrated := acc_x - accel_bias.1
    let acc_y_calibrated := acc_y - accel_bias.2.1
    let acc_z_calibrated := acc_z - accel_bias.2.2
    let gyro_x_calibrated := gyro_x - gyro_bias.1
    let gyro_y_calibrated := gyro_y - gyro_bias.2.1
    let gyro_z_calibrated := gyro_z - gyro_bias.2.2
    let fax := fs.ax.update acc_x_calibrated
    let fay := fs.ay.update acc_y_calibrated
    let faz := fs.az.update acc_z_calibrated
    let fgx := fs.gx.update gyro_x_calibrated
    let fgy := fs.gy.update gyro_y_calibrated
    let fgz := fs.gz.update gyro_z_calibrated
    ((some fax.1, some fay.1, some faz.1, some fgx.1, some fgy.1, some fgz.1),
     ⟨fax.2, fay.2, faz.2, fgx.2, fgy.2, fgz.2⟩)

/-- Embedding of `_read_raw_data` (mpu_utils.py lines 60-67): combine the
two register bytes into a 16-bit word and conditionally wrap.  Note that the
source condition is `value > 32768`, a strict comparison. -/
def _read_raw_data (high low : ℕ) : ℤ :=
  let value : ℕ := (high <<< 8) ||| low
  if (value : ℤ) > 32768 then (value : ℤ) - 65536 else (value : ℤ)

/-- Two's-complement interpretation of a 16-bit word, stated from the words
of claim C10 ("the 16-bit two's-complement signed interpretation of the
word"), for comparison with `_read_raw_data`. -/
def int16_twos_complement (w : ℕ) : ℤ :=
  if w < 32768 then (w : ℤ) else (w : ℤ) - 65536

/-! ## Speed-limit fetch (speed_limit_utils.py, main2.py lines 248-268) -/

/-- Outcome of the HTTP GET in `get_speed_limit`: either the request raised
/ timed out, or a response arrived with a status code and the parsed
`speed_limits` array (each entry being its optional `speedLimit` field). -/
inductive HttpFetch where
  | failure : HttpFetch
  | response (status : ℕ) (speed_limits : List (Option ℚ)) : HttpFetch
deriving DecidableEq, Repr

/-- Embedding of `get_speed_limit` (speed_limit_utils.py lines 3-25):
returns the first entry's `speedLimit` on a 200 response with a non-empty
`speed_limits` array; `None` on an empty array, a non-200 status, or an
exception. -/
def get_speed_limit (fetch : HttpFetch) : Option ℚ :=
  match fetch with
  | .failure => none
  | .response status speed_limits =>
    if status = 200 then
      match speed_limits with
      | [] => none
      | e :: _ => e
    else none

/-- True when the fetch failed in the sense of claim C9: the request raised
an exception or the response status was not 200. -/
def fetch_failed : HttpFetch → Bool
  | .failure => true
  | .response status _ => status ≠ 200

/-- Embedding of one iteration of `speed_limit_thread`
(main2.py lines 252-268): when coordinates are present and a refresh is due
(`latest_speed_limit is None` or at least `SPEED_LIMIT_REFRESH_S` seconds
since the last fetch), the thread assigns `latest_speed_limit := sl` where
`sl` is whatever `get_speed_limit` returned, and stamps the fetch time.
Returns the new `(latest_speed_limit, last_speed_limit_fetch)`. -/
def speed_limit_thread_iteration
    (latest_gps : Option ℚ × Option ℚ × Option ℚ)
    (latest_speed_limit : Option ℚ) (last_speed_limit_fetch : ℚ)
    (now : ℚ) (fetch : HttpFetch) : Option ℚ × ℚ :=
  match latest_gps with
  | (some _, some _, _) =>
    if latest_speed_limit = none ∨
        now - last_speed_limit_fetch ≥ SPEED_LIMIT_REFRESH_S then
      (get_speed_limit fetch, now)
    else
      (latest_speed_limit, last_speed_limit_fetch)
  | _ => (latest_speed_limit, last_speed_limit_fetch)

/-! ## Warning engine (Warning_Generate.py) -/

/-- Embedding of `update_warning` (Warning_Generate.py lines 209-212):
`warning_state[index] = value`. -/
def update_warning (index : ℕ) (value : ℕ) (w : List ℕ) : List ℕ :=
  w.set index value

/-- Element-wise difference of consecutive entries, as `np.diff`:
entry i is `l[i+1] - l[i]`. -/
def np_diff (l : List ℚ) : List ℚ :=
  List.zipWith (fun x y => x - y) l.tail l

/-- Minimum of a list, as `np.min` on a non-empty array (0 on the empty
list, which the detector never reaches). -/
def np_min (l : List ℚ) : ℚ :=
  match l with
  | [] => 0
  | x :: xs => xs.foldl min x

/-- Arithmetic mean of a list, as `np.mean`. -/
def np_mean (l : List ℚ) : ℚ :=
  l.sum / (l.length : ℚ)

/-- Embedding of one iteration of `harsh_braking_thread`
(Warning_Generate.py lines 435-469): with a full batch, compute
`jerk = np.diff(accel_x) / np.diff(timestamps)` and set warning index 4 to
1 when `min(jerk) < HARSH_BRAKE_THRESHOLD` or
`mean(jerk) < HARSH_BRAKE_THRESHOLD / 2`, else to 0.  The two lists are the
`timestamps` and `accel_x` columns of the batch (equal lengths); a batch
shorter than `BATCH_SIZE`, a single-point batch, or a non-positive
time-diff sum leaves the warning vector unchanged, as in the source. -/
def harsh_braking_iteration (timestamps accel_x : List ℚ) (w : List ℕ) :
    List ℕ :=
  if timestamps.length < BATCH_SIZE then w
  else if 1 < timestamps.length then
    let time_diffs := np_diff timestamps
    if 0 < time_diffs.sum then
      let accel_diffs := np_diff accel_x
      let jerk_values := List.zipWith (fun x y => x / y) accel_diffs time_diffs
      let avg_jerk := np_mean jerk_values
      let min_jerk := np_min jerk_values
      if min_jerk < HARSH_BRAKE_THRESHOLD ∨
          avg_jerk < HARSH_BRAKE_THRESHOLD / 2 then
        update_warning 4 1 w
      else
        update_warning 4 0 w
    else w
  else w

/-- The jerk sequence exactly as claim C5 states it:
`jerk[i] = (acc_x[i+1] - acc_x[i]) / (t[i+1] - t[i])` over the 103
consecutive row pairs of a 104-point batch. -/
def claim_jerks (timestamps accel_x : List ℚ) : List ℚ :=
  List.ofFn (fun i : Fin 103 =>
    (accel_x.getD ((i : ℕ) + 1) 0 - accel_x.getD (i : ℕ) 0) /
      (timestamps.getD ((i : ℕ) + 1) 0 - timestamps.getD (i : ℕ) 0))

/-- Class names of the LSTM classifier (Warning_Generate.py line 261). -/
def CLASS_NAMES : List String := ["BUMP", "LEFT", "RIGHT", "STOP", "STRAIGHT"]

/-- First index of the maximal element, as `np.argmax` (ties resolved to
the earliest index); helper for `np_argmax`. -/
def np_argmax_aux : List ℚ → ℕ → ℕ → ℚ → ℕ
  | [], _, best, _ => best
  | x :: xs, i, best, bestV =>
    if bestV < x then np_argmax_aux xs (i + 1) i x
    else np_argmax_aux xs (i + 1) best bestV

/-- Index of the first maximal element of a list, as `np.argmax`. -/
def np_argmax (l : List ℚ) : ℕ :=
  match l with
  | [] => 0
  | x :: xs => np_argmax_aux xs 1 0 x

/-- Embedding of the classification/thresholding tail of one iteration of
`lstm_prediction_thread` (Warning_Generate.py lines 298-314), given the
softmax output row `prediction` produced by the model at line 299.  Computes
`pred_class_idx = argmax`, the confidence at that index, the predicted
label, and `bump_idx`; sets warning index 1 to 1 when
`pred_class_idx == bump_idx and confidence >= BUMP_CONFIDENCE_THRESHOLD`,
else to 0.  Returns the updated warning vector and the stored label. -/
def lstm_iteration (prediction : List ℚ) (w : List ℕ) : List ℕ × String :=
  let pred_class_idx := np_argmax prediction
  let confidence := prediction.getD pred_class_idx 0
  let predicted_label :=
    if h : pred_class_idx < CLASS_NAMES.length then
      CLASS_NAMES.get ⟨pred_class_idx, h⟩
    else toString pred_class_idx
  let bump_idx := if "BUMP" ∈ CLASS_NAMES then CLASS_NAMES.indexOf "BUMP" else 0
  let w2 :=
    if pred_class_idx = bump_idx ∧ BUMP_CONFIDENCE_THRESHOLD ≤ confidence then
      update_warning 1 1 w
    else
      update_warning 1 0 w
  (w2, predicted_label)

/-! ## Theorems -/

theorem calc_speed_upper_cap (s : SpeedState) (now : ℚ)
    (h : s.current_speed_ms ≤ 83.3333) :
    (calculate_speed_from_accel s now).1.current_speed_ms ≤ 83.3333 := by
  rcases s with ⟨a, ts, v⟩
  cases ts with
  | none => simpa [calculate_speed_from_accel] using h
  | some t =>
    simp only [calculate_speed_from_accel]
    split_ifs
    all_goals first
      | exact le_refl _
      | exact le_of_not_lt (by assumption)

theorem calc_speed_deadband_step (s : SpeedState) (now : ℚ)
    (hacc : |s.last_accel_ms2 / G_TO_MS2 - OPTIMAL_BIAS| < DEADBAND_G)
    (hv : s.current_speed_ms ≤ 83.3333) :
    (calculate_speed_from_accel s now).1.current_speed_ms = s.current_speed_ms := by
  rcases s with ⟨a, ts, v⟩
  cases ts with
  | none => simp [calculate_speed_from_accel]
  | some t =>
    simp only [calculate_speed_from_accel]
    rw [if_pos hacc]
    simp only [zero_mul, add_zero]
    rw [if_neg (not_lt.mpr hv)]

/-- Claim C1: the spec says a GPS fix with speed in (0.5, 300] km/h anchors
the integrator, i.e. the module-level `current_speed_ms` becomes
`gps_speed / 3.6` (clamped) and `last_speed_calc_ts` is reset, so that
`|current_speed_ms * 3.6 - gps_speed| < 0.01`.  The code computes exactly
that anchor value - but into thread-local variables, because `gps_thread`
does not declare `current_speed_ms` / `last_speed_calc_ts` as `global`
(main2.py line 152).  At a concrete valid fix of 40 km/h the module
integrator state is left untouched at 0 m/s with an unset anchor, the
computed value lands only in the local frame, and the claimed bound
`|v * 3.6 - gps_speed| < 0.01` fails by 40 km/h. -/
theorem C1_gps_anchor_not_written_to_module_state :
    (gps_thread_iteration ⟨⟨0, none, 0⟩, (none, none, none), 0, "UNKNOWN"⟩
        (some 12.97, some 77.59, some 40) 5 (fun _ => 0) 100).1.speed =
      (⟨0, none, 0⟩ : SpeedState) ∧
    (gps_thread_iteration ⟨⟨0, none, 0⟩, (none, none, none), 0, "UNKNOWN"⟩
        (some 12.97, some 77.59, some 40) 5 (fun _ => 0) 100).2 =
      some (max 0 (min 83.3333 (40 / 3.6)), 5) ∧
    ¬ |(gps_thread_iteration ⟨⟨0, none, 0⟩, (none, none, none), 0, "UNKNOWN"⟩
          (some 12.97, some 77.59, some 40) 5 (fun _ => 0) 100).1.speed.current_speed_ms
        * 3.6 - 40| < 0.01 := by
  decide

/-- Claim C2 counterexample: with the integrator anchored, a braking
acceleration (`last_accel_ms2 = -9.81`, i.e. -1 g) over one second drives
`current_speed_ms` strictly below 0, so the claimed invariant
`current_speed_ms ∈ [0, 83.3333]` is false: the non-negative clamp is
commented out in the source (main2.py lines 110-114). -/
theorem C2_speed_nonneg_counterexample :
    ¬ (0 ≤ (calculate_speed_from_accel ⟨-9.81, some 0, 0⟩ 1).1.current_speed_ms) := by
  decide

/-- Claim C2 amended: only the upper bound survives.  Every call to
`calculate_speed_from_accel` preserves `current_speed_ms ≤ 83.3333` m/s
(the hard cap at main2.py line 117), hence the emitted
`speed_kmh = current_speed_ms * 3.6` never exceeds 300; the lower bound 0
of the claim is not enforced by the code. -/
theorem C2_speed_upper_bound_amended (s : SpeedState) (now : ℚ)
    (h : s.current_speed_ms ≤ 83.3333) :
    (calculate_speed_from_accel s now).1.current_speed_ms ≤ 83.3333 ∧
    (calculate_speed_from_accel s now).1.current_speed_ms * 3.6 ≤ 300 := by
  have h1 := calc_speed_upper_cap s now h
  exact ⟨h1, by linarith⟩

/-- Witness for `C2_speed_upper_bound_amended` at the initial integrator
state and a first call at time 0. -/
theorem C2_speed_upper_bound_witness :
    (⟨0, none, 0⟩ : SpeedState).current_speed_ms ≤ 83.3333 ∧
    (calculate_speed_from_accel ⟨0, none, 0⟩ 0).1.current_speed_ms ≤ 83.3333 ∧
    (calculate_speed_from_accel ⟨0, none, 0⟩ 0).1.current_speed_ms * 3.6 ≤ 300 :=
  ⟨by decide, (C2_speed_upper_bound_amended ⟨0, none, 0⟩ 0 (by decide)).1,
   (C2_speed_upper_bound_amended ⟨0, none, 0⟩ 0 (by decide)).2⟩

/-- Claim C3: the spec says the ride-start reset sets the module
integrator to `v = 0` with an unset time anchor.  The code's reset block
(main2.py lines 532-535) assigns `current_speed_ms = 0.0` and
`last_speed_calc_ts = None` inside `main`, which does not declare either
name as `global` (line 436): the assignments create locals of `main` and
the module-level integrator state survives the ride start unchanged.  At a
concrete pre-ride state (speed 5 m/s, anchor set at t=2) the module state
after the "reset" still holds speed 5 and a set anchor, while the values 0
and `None` land in `main`'s local frame. -/
theorem C3_ride_start_reset_not_applied :
    (ride_start_reset ⟨1, some 2, 5⟩).1 = (⟨1, some 2, 5⟩ : SpeedState) ∧
    (ride_start_reset ⟨1, some 2, 5⟩).1.current_speed_ms ≠ 0 ∧
    (ride_start_reset ⟨1, some 2, 5⟩).1.last_speed_calc_ts ≠ none ∧
    (ride_start_reset ⟨1, some 2, 5⟩).2 = ((0 : ℚ), (none : Option ℚ)) := by
  decide

/-- Claim C4: over any sequence of consecutive integrator calls during
which the bias-corrected acceleration `|last_accel_ms2 / 9.81 - 0.117588|`
stays strictly below the 0.02 g deadband, the deadband zeroes the
integrand on every call and `current_speed_ms` is exactly unchanged (the
hard cap cannot fire because the speed stays at its initial value, which
is within the cap). -/
theorem C4_deadband_zero_change (s : SpeedState) (calls : List (ℚ × ℚ))
    (hacc : ∀ p ∈ calls, |p.2 / G_TO_MS2 - OPTIMAL_BIAS| < DEADBAND_G)
    (hv : s.current_speed_ms ≤ 83.3333) :
    (runSpeedCalls s calls).current_speed_ms = s.current_speed_ms := by
  induction calls generalizing s with
  | nil => rfl
  | cons p rest ih =>
    have hstep : (calculate_speed_from_accel
          { s with last_accel_ms2 := p.2 } p.1).1.current_speed_ms
        = s.current_speed_ms :=
      calc_speed_deadband_step _ p.1
        (by simpa using hacc p (List.mem_cons_self p rest)) hv
    have hrec := ih ((calculate_speed_from_accel { s with last_accel_ms2 := p.2 } p.1).1)
      (fun q hq => hacc q (List.mem_cons_of_mem p hq))
      (by rw [hstep]; exact hv)
    simp only [runSpeedCalls, List.foldl_cons] at hrec ⊢
    exact hrec.trans hstep

/-- Witness for `C4_deadband_zero_change`: two calls whose stored
accelerations are within the deadband of the calibrated bias leave a
10 m/s integrator state exactly unchanged. -/
theorem C4_deadband_zero_change_witness :
    (∀ p ∈ [((1 : ℚ), G_TO_MS2 * OPTIMAL_BIAS), ((2 : ℚ), (9.81 : ℚ) * 0.12)],
        |p.2 / G_TO_MS2 - OPTIMAL_BIAS| < DEADBAND_G) ∧
    (⟨0, some 0, 10⟩ : SpeedState).current_speed_ms ≤ 83.3333 ∧
    (runSpeedCalls ⟨0, some 0, 10⟩
        [((1 : ℚ), G_TO_MS2 * OPTIMAL_BIAS),
         ((2 : ℚ), (9.81 : ℚ) * 0.12)]).current_speed_ms = 10 :=
  ⟨by decide, by decide,
   C4_deadband_zero_change ⟨0, some 0, 10⟩ _ (by decide) (by decide)⟩

/-- Claim C7 counterexample: the claim says a failed GPS read retains the
last known (lat, lon).  Starting from a published fix (12.97, 77.59) and
feeding the thread a failed read (`(None, None, None)` from
`gps_utils.get_gps_data`), the new `latest_gps` has `lat = lon = None`:
main2.py line 222 publishes `(None, None, final_speed)`, discarding the
previous coordinates. -/
theorem C7_lat_lon_not_retained_counterexample :
    (gps_thread_iteration
        ⟨⟨0, none, 0⟩, (some 12.97, some 77.59, some 30), 50, "GPS"⟩
        (none, none, none) 0 (fun _ => 0) 60).1.latest_gps.1 = none ∧
    (gps_thread_iteration
        ⟨⟨0, none, 0⟩, (some 12.97, some 77.59, some 30), 50, "GPS"⟩
        (none, none, none) 0 (fun _ => 0) 60).1.latest_gps.1 ≠ some 12.97 ∧
    (gps_thread_iteration
        ⟨⟨0, none, 0⟩, (some 12.97, some 77.59, some 30), 50, "GPS"⟩
        (none, none, none) 0 (fun _ => 0) 60).1.latest_gps.2.1 = none := by
  decide

/-- Claim C7 amended: on a completely failed GPS read the thread publishes
`latest_gps = (None, None, fallback_speed)` - the last known coordinates
are DISCARDED, not retained - where `fallback_speed` is the average of 104
accelerometer-integrated samples converted to km/h; it stamps
`gps_last_update_time` with the current wall time and sets the speed
source tag to `"ACCEL"`. -/
theorem C7_failed_read_amended (st : GpsShared) (now_perf now_wall : ℚ)
    (times : ℕ → ℚ) :
    (gps_thread_iteration st (none, none, none) now_perf times now_wall).1 =
      { st with
          speed := (fallback_avg st.speed times).1,
          latest_gps := (none, none, some (fallback_avg st.speed times).2),
          gps_last_update_time := now_wall,
          latest_speed_source := "ACCEL" } := by
  rfl

/-- Claim C8 counterexample: the claim says a failed IMU read returns the
previous (successfully read) sample.  After one successful read producing a
6-tuple of `some` values, a failing read returns the all-`None` tuple
(mpu_utils.py line 178), which differs from the previous sample. -/
theorem C8_previous_sample_not_returned_counterexample :
    (get_mpu_data none (0, 0, 0) (0, 0, 0)
        (get_mpu_data (some (16384, 0, 0, 0, 0, 0)) (0, 0, 0) (0, 0, 0)
          ⟨accelFilterInit, accelFilterInit, accelFilterInit,
           gyroFilterInit, gyroFilterInit, gyroFilterInit⟩).2).1 ≠
      (get_mpu_data (some (16384, 0, 0, 0, 0, 0)) (0, 0, 0) (0, 0, 0)
        ⟨accelFilterInit, accelFilterInit, accelFilterInit,
         gyroFilterInit, gyroFilterInit, gyroFilterInit⟩).1 ∧
    (get_mpu_data (some (16384, 0, 0, 0, 0, 0)) (0, 0, 0) (0, 0, 0)
        ⟨accelFilterInit, accelFilterInit, accelFilterInit,
         gyroFilterInit, gyroFilterInit, gyroFilterInit⟩).1.1 ≠ none := by
  decide

/-- Claim C8 amended: when the device read raises, `get_mpu_data` returns
the fixed tuple `(None, None, None, None, None, None)` - not the previous
sample - and leaves the filter state untouched; it never propagates the
exception. -/
theorem C8_exception_returns_none_tuple (accel_bias gyro_bias : ℚ × ℚ × ℚ)
    (fs : MpuFilters) :
    get_mpu_data none accel_bias gyro_bias fs =
      ((none, none, none, none, none, none), fs) := by
  rfl

/-- Claim C9 counterexample: the claim says a failed speed-limit fetch
retains the previous published value.  With coordinates available, a
previous value of 40 and a refresh due (100 - 0 >= 50), an exceptional
fetch overwrites `latest_speed_limit` with `None`: `get_speed_limit`
returns `None` on failure (speed_limit_utils.py line 25) and the thread
assigns it unconditionally (main2.py lines 260-263). -/
theorem C9_previous_value_lost_counterexample :
    speed_limit_thread_iteration (some 12.97, some 77.59, some 30)
        (some 40) 0 100 .failure = (none, 100) ∧
    (speed_limit_thread_iteration (some 12.97, some 77.59, some 30)
        (some 40) 0 100 .failure).1 ≠ some 40 := by
  decide

/-- Claim C9 amended: when coordinates are present, a refresh is due and
the fetch fails (exception or non-200 status), the thread OVERWRITES
`latest_speed_limit` with `None` and stamps the fetch time; the previous
value is retained only when no fetch is attempted (no coordinates, or the
50 s refresh interval has not elapsed while a value is present). -/
theorem C9_failed_fetch_overwrites_amended
    (lat lon : ℚ) (spd : Option ℚ) (latest : Option ℚ) (last_fetch now : ℚ)
    (fetch : HttpFetch) (hfail : fetch_failed fetch = true)
    (hdue : latest = none ∨ now - last_fetch ≥ SPEED_LIMIT_REFRESH_S) :
    speed_limit_thread_iteration (some lat, some lon, spd) latest last_fetch
        now fetch = (none, now) := by
  have hsl : get_speed_limit fetch = none := by
    cases fetch with
    | failure => rfl
    | response status limits =>
      simp only [fetch_failed, decide_eq_true_eq] at hfail
      simp [get_speed_limit, hfail]
  simp [speed_limit_thread_iteration, hdue, hsl]

/-- Witness for `C9_failed_fetch_overwrites_amended`: a concrete due
refresh with a 503 response wipes a previously published limit of 40. -/
theorem C9_failed_fetch_overwrites_witness :
    fetch_failed (.response 503 []) = true ∧
    ((some 40 : Option ℚ) = none ∨ (100 : ℚ) - 0 ≥ SPEED_LIMIT_REFRESH_S) ∧
    speed_limit_thread_iteration (some 12.97, some 77.59, some 30)
        (some 40) 0 100 (.response 503 []) = (none, 100) :=
  ⟨by decide, by decide,
   C9_failed_fetch_overwrites_amended 12.97 77.59 (some 30) (some 40) 0 100
     (.response 503 []) (by decide) (by decide)⟩

/-- Claim C10 counterexample: the claim says `_read_raw_data` returns the
16-bit two's-complement interpretation of `(high << 8) | low`, always in
[-32768, 32767].  At `high = 128, low = 0` the word is 32768; the source
condition `value > 32768` (mpu_utils.py line 65) is strict, so no wrap is
applied and the function returns 32768, while the two's-complement
interpretation is -32768 and 32768 lies outside [-32768, 32767]. -/
theorem C10_off_by_one_counterexample :
    _read_raw_data 128 0 = 32768 ∧
    int16_twos_complement ((128 <<< 8) ||| 0) = -32768 ∧
    ¬ (_read_raw_data 128 0 ≤ 32767) := by
  decide

/-- Claim C10 amended: for register bytes below 256, `_read_raw_data`
agrees with the 16-bit two's-complement interpretation of
`(high << 8) | low` whenever that word is not exactly 32768 (where the
strict comparison leaves 32768 unwrapped), and its result always lies in
[-32767, 32768]. -/
theorem C10_read_raw_data_amended (high low : ℕ)
    (hh : high < 256) (hl : low < 256)
    (hmid : (high <<< 8) ||| low ≠ 32768) :
    _read_raw_data high low = int16_twos_complement ((high <<< 8) ||| low) ∧
    -32767 ≤ _read_raw_data high low ∧ _read_raw_data high low ≤ 32768 := by
  have h8 : (2 : ℕ) ^ 8 = 256 := by norm_num
  have h16 : (2 : ℕ) ^ 16 = 65536 := by norm_num
  have hhi : high <<< 8 < 2 ^ 16 := by
    rw [Nat.shiftLeft_eq, h8, h16]
    omega
  have hlo : low < 2 ^ 16 := by
    rw [h16]
    omega
  have hw : (high <<< 8) ||| low < 65536 := by
    have h := Nat.or_lt_two_pow hhi hlo
    rwa [h16] at h
  unfold _read_raw_data int16_twos_complement
  rcases lt_or_ge ((high <<< 8) ||| low) 32768 with hlt | hge
  · have hnot : ¬ ((((high <<< 8) ||| low : ℕ) : ℤ) > 32768) := by omega
    rw [if_neg hnot, if_pos hlt]
    exact ⟨rfl, by omega, by omega⟩
  · have hgt : ((((high <<< 8) ||| low : ℕ) : ℤ) > 32768) := by omega
    have hnot : ¬ ((high <<< 8) ||| low < 32768) := by omega
    rw [if_pos hgt, if_neg hnot]
    exact ⟨rfl, by omega, by omega⟩

/-- Witness for `C10_read_raw_data_amended` at `high = 255, low = 255`
(word 65535, decoded as -1). -/
theorem C10_read_raw_data_witness :
    (255 : ℕ) < 256 ∧ ((255 <<< 8) ||| 255 : ℕ) ≠ 32768 ∧
    _read_raw_data 255 255 = int16_twos_complement ((255 <<< 8) ||| 255) ∧
    -32767 ≤ _read_raw_data 255 255 ∧ _read_raw_data 255 255 ≤ 32768 :=
  ⟨by decide, by decide,
   (C10_read_raw_data_amended 255 255 (by decide) (by decide) (by decide)).1,
   (C10_read_raw_data_amended 255 255 (by decide) (by decide) (by decide)).2.1,
   (C10_read_raw_data_amended 255 255 (by decide) (by decide) (by decide)).2.2⟩

theorem np_diff_length (l : List ℚ) : (np_diff l).length = l.length - 1 := by
  simp [np_diff]

theorem np_diff_getElem (l : List ℚ) (i : ℕ) (h : i < (np_diff l).length) :
    (np_diff l)[i] = l.getD (i + 1) 0 - l.getD i 0 := by
  have hlen := np_diff_length l
  have hi1 : i + 1 < l.length := by omega
  have hi0 : i < l.length := by omega
  simp only [np_diff, List.getElem_zipWith, List.getElem_tail,
    List.getD_eq_getElem _ _ hi1, List.getD_eq_getElem _ _ hi0]

theorem jerk_values_eq_claim_jerks (t a : List ℚ)
    (ht : t.length = 104) (ha : a.length = 104) :
    List.zipWith (fun x y => x / y) (np_diff a) (np_diff t) = claim_jerks t a := by
  apply List.ext_getElem
  · rw [List.length_zipWith, np_diff_length, np_diff_length, ht, ha]
    simp only [claim_jerks, List.length_ofFn]
    omega
  · intro i h1 h2
    have hia : i < (np_diff a).length := by
      rw [List.length_zipWith] at h1
      omega
    have hit : i < (np_diff t).length := by
      rw [List.length_zipWith] at h1
      omega
    rw [List.getElem_zipWith, np_diff_getElem a i hia, np_diff_getElem t i hit]
    simp only [claim_jerks, List.getElem_ofFn]

theorem time_diffs_sum_pos (t : List ℚ) (ht : t.length = 104)
    (hinc : t.Chain' (· < ·)) : 0 < (np_diff t).sum := by
  apply List.sum_pos
  · intro x hx
    rw [List.mem_iff_getElem] at hx
    obtain ⟨i, hi, rfl⟩ := hx
    have hlen := np_diff_length t
    have hi1 : i + 1 < t.length := by omega
    have hi0 : i < t.length := by omega
    rw [np_diff_getElem t i hi]
    have hci := List.chain'_iff_get.mp hinc i (by omega)
    simp only [List.get_eq_getElem] at hci
    rw [List.getD_eq_getElem _ _ hi1, List.getD_eq_getElem _ _ hi0]
    exact sub_pos.mpr hci
  · apply List.ne_nil_of_length_pos
    rw [np_diff_length]
    omega

/-- Claim C5: for a full 104-point batch with strictly increasing
timestamps, one iteration of the harsh-braking detector sets warning
index 4 to 1 exactly when `min(jerk) < -4` or `mean(jerk) < -2`, where
`jerk[i] = (acc_x[i+1] - acc_x[i]) / (t[i+1] - t[i])` over consecutive
batch rows, and to 0 in every other case. -/
theorem C5_harsh_brake_iff (t a : List ℚ) (w : List ℕ)
    (ht : t.length = 104) (ha : a.length = 104) (hw : w.length = 6)
    (hinc : t.Chain' (· < ·)) :
    ((harsh_braking_iteration t a w)[4]? = some 1 ↔
      (np_min (claim_jerks t a) < -4 ∨ np_mean (claim_jerks t a) < -2)) ∧
    ((harsh_braking_iteration t a w)[4]? = some 0 ↔
      ¬ (np_min (claim_jerks t a) < -4 ∨ np_mean (claim_jerks t a) < -2)) := by
  have hjerk := jerk_values_eq_claim_jerks t a ht ha
  have hsum := time_diffs_sum_pos t ht hinc
  have h4 : 4 < w.length := by omega
  have hresult : harsh_braking_iteration t a w =
      if np_min (claim_jerks t a) < -4 ∨ np_mean (claim_jerks t a) < -2 then
        w.set 4 1
      else
        w.set 4 0 := by
    unfold harsh_braking_iteration
    rw [if_neg (by rw [ht]; exact lt_irrefl BATCH_SIZE),
      if_pos (by rw [ht]; norm_num), if_pos hsum]
    simp only [update_warning]
    rw [hjerk]
    norm_num [HARSH_BRAKE_THRESHOLD]
  rw [hresult]
  by_cases hcond : np_min (claim_jerks t a) < -4 ∨ np_mean (claim_jerks t a) < -2
  · rw [if_pos hcond]
    rw [List.getElem?_set_self (by omega)]
    exact ⟨by simp [hcond], by simp [hcond]⟩
  · rw [if_neg hcond]
    rw [List.getElem?_set_self (by omega)]
    exact ⟨by simp [hcond], by simp [hcond]⟩

/-- Witness for `C5_harsh_brake_iff`: a batch with integer-second
timestamps 0..103 and constant acceleration, where every jerk is 0 and the
detector writes 0. -/
theorem C5_harsh_brake_witness :
    (List.ofFn (fun i : Fin 104 => ((i : ℕ) : ℚ))).length = 104 ∧
    (List.replicate 104 (0 : ℚ)).length = 104 ∧
    (List.replicate 6 (0 : ℕ)).length = 6 ∧
    (List.ofFn (fun i : Fin 104 => ((i : ℕ) : ℚ))).Chain' (· < ·) ∧
    ((harsh_braking_iteration (List.ofFn (fun i : Fin 104 => ((i : ℕ) : ℚ)))
        (List.replicate 104 0) (List.replicate 6 0))[4]? = some 1 ↔
      (np_min (claim_jerks (List.ofFn (fun i : Fin 104 => ((i : ℕ) : ℚ)))
          (List.replicate 104 0)) < -4 ∨
        np_mean (claim_jerks (List.ofFn (fun i : Fin 104 => ((i : ℕ) : ℚ)))
          (List.replicate 104 0)) < -2)) :=
  ⟨List.length_ofFn _, List.length_replicate 104 0, List.length_replicate 6 0,
   by
     rw [List.chain'_iff_get]
     intro i h
     simp only [List.length_ofFn] at h
     simp only [List.get_eq_getElem, List.getElem_ofFn]
     exact_mod_cast Nat.lt_succ_self i,
   (C5_harsh_brake_iff _ _ _ (List.length_ofFn _) (List.length_replicate 104 0)
     (List.length_replicate 6 0)
     (by
       rw [List.chain'_iff_get]
       intro i h
       simp only [List.length_ofFn] at h
       simp only [List.get_eq_getElem, List.getElem_ofFn]
       exact_mod_cast Nat.lt_succ_self i)).1⟩

theorem np_argmax_aux_cases (xs : List ℚ) (i best : ℕ) (bestV : ℚ) :
    np_argmax_aux xs i best bestV = best ∨ i ≤ np_argmax_aux xs i best bestV := by
  induction xs generalizing i best bestV with
  | nil => exact Or.inl rfl
  | cons x xs ih =>
    simp only [np_argmax_aux]
    split_ifs with hx
    · rcases ih (i + 1) i x with h | h
      · exact Or.inr (le_of_eq h.symm)
      · exact Or.inr (le_trans (Nat.le_succ i) h)
    · rcases ih (i + 1) best bestV with h | h
      · exact Or.inl h
      · exact Or.inr (le_trans (Nat.le_succ i) h)

theorem np_argmax_aux_eq_best_iff (xs : List ℚ) :
    ∀ (best : ℕ) (bestV : ℚ) (i : ℕ), best < i →
      (np_argmax_aux xs i best bestV = best ↔ ∀ x ∈ xs, x ≤ bestV) := by
  induction xs with
  | nil =>
    intro best bestV i hbi
    simp [np_argmax_aux]
  | cons x xs ih =>
    intro best bestV i hbi
    simp only [np_argmax_aux]
    split_ifs with hx
    · constructor
      · intro h
        exfalso
        rcases np_argmax_aux_cases xs (i + 1) i x with hc | hc
        · omega
        · omega
      · intro hall
        exact absurd (hall x (List.mem_cons_self x xs)) (not_le.mpr hx)
    · rw [ih best bestV (i + 1) (by omega)]
      constructor
      · intro hall y hy
        rcases List.mem_cons.mp hy with rfl | hy
        · exact not_lt.mp hx
        · exact hall y hy
      · intro hall y hy
        exact hall y (List.mem_cons_of_mem x hy)

theorem np_argmax_eq_zero_iff (x : ℚ) (xs : List ℚ) :
    np_argmax (x :: xs) = 0 ↔ ∀ y ∈ xs, y ≤ x :=
  np_argmax_aux_eq_best_iff xs 0 x 1 (by omega)

theorem np_argmax_eq_zero_iff_getD (l : List ℚ) (hl : l ≠ []) :
    np_argmax l = 0 ↔ ∀ j < l.length, l.getD j 0 ≤ l.getD 0 0 := by
  rcases l with _ | ⟨x, xs⟩
  · exact absurd rfl hl
  · rw [np_argmax_eq_zero_iff]
    constructor
    · intro hall j hj
      cases j with
      | zero => exact le_refl _
      | succ j =>
        have hj' : j < xs.length := by simpa using hj
        have hmem : xs.getD j 0 ∈ xs := by
          rw [List.getD_eq_getElem _ _ hj']
          exact List.getElem_mem hj'
        simpa [List.getD_cons_succ, List.getD_cons_zero] using hall _ hmem
    · intro hall y hy
      rw [List.mem_iff_getElem] at hy
      obtain ⟨j, hj, rfl⟩ := hy
      have h := hall (j + 1) (by simpa using Nat.succ_lt_succ hj)
      rw [List.getD_cons_succ, List.getD_cons_zero,
        List.getD_eq_getElem _ _ hj] at h
      exact h

/-- Claim C6: given a 5-way softmax output row and a 6-slot warning vector,
one classifier iteration sets warning index 1 (bump) to 1 exactly when the
argmax of the output is class BUMP - i.e. entry 0 is maximal, `np.argmax`
resolving ties to the first index - and the confidence at the argmax is at
least 0.6; in every other case it sets the bump bit to 0. -/
theorem C6_bump_iff (prediction : List ℚ) (w : List ℕ)
    (hp : prediction.length = 5) (hw : w.length = 6) :
    ((lstm_iteration prediction w).1[1]? = some 1 ↔
      ((∀ j < 5, prediction.getD j 0 ≤ prediction.getD 0 0) ∧
        BUMP_CONFIDENCE_THRESHOLD ≤ prediction.getD 0 0)) ∧
    ((lstm_iteration prediction w).1[1]? = some 0 ↔
      ¬ ((∀ j < 5, prediction.getD j 0 ≤ prediction.getD 0 0) ∧
        BUMP_CONFIDENCE_THRESHOLD ≤ prediction.getD 0 0)) := by
  have hnil : prediction ≠ [] := by
    intro h
    rw [h] at hp
    simp at hp
  have hargb : np_argmax prediction = 0 ↔
      ∀ j < 5, prediction.getD j 0 ≤ prediction.getD 0 0 := by
    rw [np_argmax_eq_zero_iff_getD prediction hnil, hp]
  have hbump :
      (if "BUMP" ∈ CLASS_NAMES then List.indexOf "BUMP" CLASS_NAMES else 0) = 0 := by
    decide
  have hcond : (np_argmax prediction = 0 ∧
        BUMP_CONFIDENCE_THRESHOLD ≤ prediction.getD (np_argmax prediction) 0) ↔
      ((∀ j < 5, prediction.getD j 0 ≤ prediction.getD 0 0) ∧
        BUMP_CONFIDENCE_THRESHOLD ≤ prediction.getD 0 0) := by
    constructor
    · rintro ⟨h0, hc⟩
      rw [h0] at hc
      exact ⟨hargb.mp h0, hc⟩
    · rintro ⟨hall, hc⟩
      have h0 := hargb.mpr hall
      rw [h0]
      exact ⟨rfl, hc⟩
  simp only [lstm_iteration, update_warning, hbump]
  by_cases hc : np_argmax prediction = 0 ∧
      BUMP_CONFIDENCE_THRESHOLD ≤ prediction.getD (np_argmax prediction) 0
  · rw [if_pos hc, List.getElem?_set_self (by omega)]
    exact ⟨iff_of_true rfl (hcond.mp hc),
      iff_of_false (by simp) (not_not_intro (hcond.mp hc))⟩
  · rw [if_neg hc, List.getElem?_set_self (by omega)]
    exact ⟨iff_of_false (by simp) (fun h => hc (hcond.mpr h)),
      iff_of_true rfl (fun h => hc (hcond.mpr h))⟩

/-- Witness for `C6_bump_iff`: a softmax row with 0.7 on class BUMP. -/
theorem C6_bump_iff_witness :
    ([(0.7 : ℚ), 0.1, 0.1, 0.05, 0.05] : List ℚ).length = 5 ∧
    ([0, 0, 0, 0, 0, 0] : List ℕ).length = 6 ∧
    ((lstm_iteration [0.7, 0.1, 0.1, 0.05, 0.05] [0, 0, 0, 0, 0, 0]).1[1]? = some 1 ↔
      ((∀ j < 5,
          ([(0.7 : ℚ), 0.1, 0.1, 0.05, 0.05] : List ℚ).getD j 0 ≤
            ([(0.7 : ℚ), 0.1, 0.1, 0.05, 0.05] : List ℚ).getD 0 0) ∧
        BUMP_CONFIDENCE_THRESHOLD ≤
          ([(0.7 : ℚ), 0.1, 0.1, 0.05, 0.05] : List ℚ).getD 0 0)) :=
  ⟨rfl, rfl,
   (C6_bump_iff [0.7, 0.1, 0.1, 0.05, 0.05] [0, 0, 0, 0, 0, 0] rfl rfl).1⟩

end TwoWheeler
